import Mathlib

/-!
Verification development for the aicon movie-pipeline orchestration core.

The definitions below are a shallow embedding of the frontend workflow
composables of the repository:

* useMovieWorkflow.js   — determineCurrentStep (the stage controller)
* useShotWorkflow.js    — allShots, extractShots, generateKeyframes
* useCharacterWorkflow.js — loadCharacters, extractCharacters, generateAvatar,
  batchGenerateAvatars, deleteCharacter
* useSceneWorkflow.js   — loadScript
* useTransitionWorkflow.js — loadTransitions, generateSingleVideo,
  deleteTransition

Asynchronous JavaScript functions are embedded as pure functions from the
results of their external calls (service responses, fetches, job outcomes)
to the state they leave behind and the effects they perform.  The job
poller (useTaskPoller.js) is not part of the repository snapshot — only its
callers are — so it is modelled from the specification where needed; those
definitions say so in their doc comments.
-/

/-- Error object surfaced by a rejected promise; only its message field is
ever read by the composables. -/
structure Err where
  message : String
  deriving Repr, DecidableEq

/-- JavaScript truthiness of an optional string field: null and undefined
(embedded as none) and the empty string are falsy, every other string is
truthy.  This is the test the code performs with expressions such as
s.keyframe_url used in Boolean position. -/
def jsTruthy : Option String → Bool
  | none => false
  | some s => s != ""

/-- JavaScript Set.prototype.add on a set kept in insertion order: appends
the element when absent, otherwise leaves the set unchanged. -/
def jsSetAdd (l : List Nat) (x : Nat) : List Nat :=
  if l.contains x then l else l ++ [x]

/-- JavaScript Set.prototype.delete: removes the element. -/
def jsSetDelete (l : List Nat) (x : Nat) : List Nat :=
  l.filter fun y => y != x

/-- Shot entity as consumed by the composables: identifier, order index and
the optional keyframe image reference (null until the keyframe job
succeeds). -/
structure Shot where
  id : Nat
  order_index : Int
  keyframe_url : Option String
  deriving Repr, DecidableEq

/-- The object literal built inside allShots: every field of the shot plus
the parent scene identifier. -/
structure TaggedShot where
  id : Nat
  scene_id : Nat
  order_index : Int
  keyframe_url : Option String
  deriving Repr, DecidableEq

/-- Scene entity: identifier and the shots it owns.  The code accesses
scene.shots without a guard, matching the data model in which every scene
carries its (possibly empty) shot list. -/
structure Scene where
  id : Nat
  shots : List Shot
  deriving Repr, DecidableEq

/-- Script entity: identifier and its scenes.  The scenes field is optional
because the code guards it with script.scenes?.length and
script.value?.scenes, so a script object without a scenes array is
representable. -/
structure Script where
  id : Nat
  scenes : Option (List Scene)
  deriving Repr, DecidableEq

/-- Transition entity as consumed by determineCurrentStep: only its
presence in the transitions slice matters there. -/
structure Transition where
  id : Nat
  order_index : Int
  video_url : Option String
  deriving Repr, DecidableEq

/-- Character entity: identifier, name and the optional avatar reference. -/
structure Character where
  id : Nat
  name : String
  avatar_url : Option String
  deriving Repr, DecidableEq

/-- The spread expression of allShots: all fields of the shot plus
scene_id set to the parent scene id. -/
def tagShot (sceneId : Nat) (s : Shot) : TaggedShot :=
  ⟨s.id, sceneId, s.order_index, s.keyframe_url⟩

/-- The flatMap step of allShots: every scene contributes its shots, each
tagged with that scene's id. -/
def flattenShots (scenes : List Scene) : List TaggedShot :=
  scenes.flatMap fun scene => scene.shots.map (tagShot scene.id)

/-- The comparator passed to Array.prototype.sort in allShots, expressed as
a Boolean order: a precedes b when its order index is not larger. -/
def shotLE (a b : TaggedShot) : Bool :=
  a.order_index ≤ b.order_index

/-- useShotWorkflow.allShots: when the script is missing or has no scenes
array the computed value is the empty list; otherwise the scenes are
flattened to their tagged shots and sorted by order_index ascending
(Array.prototype.sort with a numeric comparator is a stable sort, embedded
as mergeSort). -/
def allShots (script : Option Script) : List TaggedShot :=
  match script with
  | none => []
  | some s =>
    match s.scenes with
    | none => []
    | some scenes => (flattenShots scenes).mergeSort shotLE

/-- useMovieWorkflow.determineCurrentStep: derives the current stage index
from the script slice (with its scenes and shots) and the transitions
slice, exactly following the if-else chain of the code: missing script,
then empty scenes, then empty allShots, then some shot without a truthy
keyframe_url, then empty transitions, else the terminal stage. -/
def determineCurrentStep (script : Option Script) (transitions : List Transition) : Nat :=
  match script with
  | none => 0
  | some s =>
    if (s.scenes.getD []).length = 0 then 1
    else if (allShots (some s)).length = 0 then 2
    else if ¬ ((allShots (some s)).all fun t => jsTruthy t.keyframe_url) then 3
    else if transitions.length = 0 then 4
    else 5

/-- The stage function exactly as claim C1 words it (the spec's
deriveStage): 0 when no script exists; 1 when the script exists but has
zero scenes; 2 when scenes exist but the union of all shots across all
scenes is empty; 3 when shots exist but at least one shot has a null
keyframe reference; 4 when all shots have keyframes but zero transitions
exist; 5 otherwise. -/
def claimStage (script : Option Script) (transitions : List Transition) : Nat :=
  match script with
  | none => 0
  | some s =>
    let scenes := s.scenes.getD []
    if scenes.length = 0 then 1
    else if (flattenShots scenes).length = 0 then 2
    else if (flattenShots scenes).any (fun t => t.keyframe_url == none) then 3
    else if transitions.length = 0 then 4
    else 5

/-- A snapshot is keyframe well formed when no shot carries the empty
string as its keyframe reference: the field is null until the keyframe job
succeeds and then holds a URL, so the empty string never occurs.  On such
snapshots JavaScript truthiness of the field coincides with it being
non-null. -/
def KeyframeWF (script : Option Script) : Prop :=
  ∀ t ∈ allShots script, t.keyframe_url ≠ some ""

/-- useSceneWorkflow.loadScript: returns early when no chapter id is
present; otherwise on fetch success the script slice becomes response.data
and on fetch failure the error is caught (logged, not rethrown) and the
slice is set to null.  The function is total: every input maps to a
resulting slice, so a failed fetch never escapes to the caller. -/
def loadScript (chapterIdPresent : Bool) (fetched : Except Err Script)
    (prior : Option Script) : Option Script :=
  if chapterIdPresent = false then prior
  else
    match fetched with
    | .ok s => some s
    | .error _ => none

/-- useCharacterWorkflow.loadCharacters: returns early when no project id
is present; on success the slice is replaced wholesale by
response.characters with a fallback to the empty list when the field is
absent; on fetch failure the error is caught and the previous slice is
kept. -/
def loadCharacters (projectIdPresent : Bool)
    (fetched : Except Err (Option (List Character)))
    (prior : List Character) : List Character :=
  if projectIdPresent = false then prior
  else
    match fetched with
    | .ok cs => cs.getD []
    | .error _ => prior

/-- useTransitionWorkflow.loadTransitions: returns early when no script id
is present; on success the slice is replaced wholesale by
response.transitions with a fallback to the empty list; on fetch failure
the slice is reset to the empty list. -/
def loadTransitions (scriptIdPresent : Bool)
    (fetched : Except Err (Option (List Transition)))
    (prior : List Transition) : List Transition :=
  if scriptIdPresent = false then prior
  else
    match fetched with
    | .ok ts => ts.getD []
    | .error _ => []

/-- Observable outcome of a delete operation: the slice it leaves behind,
whether the reload of the slice was invoked, and whether an error message
was surfaced to the user. -/
structure DeleteRun (α : Type) where
  slice : List α
  reloaded : Bool
  errorSurfaced : Bool
  deriving Repr, DecidableEq

/-- useCharacterWorkflow.deleteCharacter: awaits the external delete
collaborator; on success it surfaces a success message and reloads the
character slice via loadCharacters; when the delete rejects (including a
delete of an already removed id, which the backend reports as an error)
the catch block surfaces an error message and the slice is not touched —
loadCharacters is never called on that path. -/
def deleteCharacter (deleteResult : Except Err Unit) (projectIdPresent : Bool)
    (fetched : Except Err (Option (List Character)))
    (prior : List Character) : DeleteRun Character :=
  match deleteResult with
  | .ok _ => ⟨loadCharacters projectIdPresent fetched prior, true, false⟩
  | .error _ => ⟨prior, false, true⟩

/-- useTransitionWorkflow.deleteTransition: same shape as deleteCharacter —
on success reload the transition slice via loadTransitions and return
true, on rejection surface an error message, leave the slice untouched and
return false. -/
def deleteTransition (deleteResult : Except Err Unit) (scriptIdPresent : Bool)
    (fetched : Except Err (Option (List Transition)))
    (prior : List Transition) : DeleteRun Transition :=
  match deleteResult with
  | .ok _ => ⟨loadTransitions scriptIdPresent fetched prior, true, false⟩
  | .error _ => ⟨prior, false, true⟩

/-- Result of awaiting a submit call of the generation service: either the
promise rejects with an error, or it resolves with a payload that may or
may not carry a task id (the code always tests response.task_id before
starting a poll). -/
inductive SubmitResp where
  | failure (e : Err)
  | payload (task_id : Option Nat)
  deriving Repr, DecidableEq

/-- State left by the submission phase of a per-entity generate call: the
busy id set after the phase settles, whether the backend submit call was
made at all, and the id of the poll loop that was started, if any. -/
structure GenerateRun where
  generatingIds : List Nat
  jobSubmitted : Bool
  pollStarted : Option Nat
  deriving Repr, DecidableEq

/-- useCharacterWorkflow.generateAvatar, submission phase: the character id
is added to generatingIds unconditionally — there is no membership check
and no early return — then the service call is made; a poll is started
only when the response carries a task id; when the call rejects, the catch
block removes the id again. -/
def generateAvatar (busy : List Nat) (characterId : Nat)
    (resp : SubmitResp) : GenerateRun :=
  let busy1 := jsSetAdd busy characterId
  match resp with
  | .failure _ => ⟨jsSetDelete busy1 characterId, true, none⟩
  | .payload none => ⟨busy1, true, none⟩
  | .payload (some t) => ⟨busy1, true, some t⟩

/-- useTransitionWorkflow.generateSingleVideo, submission phase: identical
guard structure to generateAvatar — the transition id is added to
generatingIds unconditionally, the service call is always made, a poll is
started only when a task id is present, and the catch block removes the id
(and rethrows the error). -/
def generateSingleVideo (busy : List Nat) (transitionId : Nat)
    (resp : SubmitResp) : GenerateRun :=
  let busy1 := jsSetAdd busy transitionId
  match resp with
  | .failure _ => ⟨jsSetDelete busy1 transitionId, true, none⟩
  | .payload none => ⟨busy1, true, none⟩
  | .payload (some t) => ⟨busy1, true, some t⟩

/-- State left by the submission phase of an operation that tracks its
busyness with a single Boolean flag (extracting, batchGenerating, ...):
the flag value once the phase settles and whether a poll loop was
started. -/
structure FlagRun where
  busyFlag : Bool
  pollStarted : Bool
  deriving Repr, DecidableEq

/-- useCharacterWorkflow.extractCharacters, submission phase: sets
extracting to true, awaits the service call, and starts a poll only when
the response carries a task id.  The if statement has no else branch, so a
resolved response without a task id leaves extracting true with no poll
running; the catch block resets the flag. -/
def extractCharacters (resp : SubmitResp) : FlagRun :=
  match resp with
  | .failure _ => ⟨false, false⟩
  | .payload none => ⟨true, false⟩
  | .payload (some _) => ⟨true, true⟩

/-- useCharacterWorkflow.batchGenerateAvatars, submission phase: same shape
as extractCharacters except that the no-task-id case has an explicit else
branch that resets batchGenerating to false. -/
def batchGenerateAvatars (resp : SubmitResp) : FlagRun :=
  match resp with
  | .failure _ => ⟨false, false⟩
  | .payload none => ⟨false, false⟩
  | .payload (some _) => ⟨true, true⟩

/-- Success and failure callbacks of every poll-tracking operation in these
composables reset the busy flag; this records the flag value after either
terminal callback of extractCharacters has run. -/
def extractCharactersFlagAfterTerminal : Bool := false

/-- Terminal outcome of a generation job as handed to the terminal
callbacks: a succeeded batch result carrying the aggregate counts
(result.success, result.failed), or a definitive job failure. -/
inductive JobOutcome where
  | succeeded (success failed : Nat)
  | failed (e : Err)
  deriving Repr, DecidableEq

/-- The kind of refresh a terminal callback performs on local state. -/
inductive Refresh where
  | noRefresh
  | sliceLoad
  | pageReload
  deriving Repr, DecidableEq

/-- Effects of a terminal callback: which refresh it performs and whether
it clears the busy tracking it holds. -/
structure TerminalRun where
  refresh : Refresh
  busyCleared : Bool
  deriving Repr, DecidableEq

/-- useShotWorkflow.extractShots, terminal callbacks: the success callback
resets the flag and then runs window.location.reload() — a global
whole-page refresh, annotated Temporary solution in the code — instead of
reloading the shot slice; the failure callback only resets the flag. -/
def extractShotsTerminal : JobOutcome → TerminalRun
  | .succeeded _ _ => ⟨.pageReload, true⟩
  | .failed _ => ⟨.noRefresh, true⟩

/-- useShotWorkflow.generateKeyframes, terminal callbacks: the success
callback (for full and for partial success alike) resets the flag and runs
window.location.reload(); the failure callback only resets the flag. -/
def generateKeyframesTerminal : JobOutcome → TerminalRun
  | .succeeded _ _ => ⟨.pageReload, true⟩
  | .failed _ => ⟨.noRefresh, true⟩

/-- useCharacterWorkflow.extractCharacters, terminal callbacks: the success
callback reloads only the character slice via loadCharacters and resets
the flag; the failure callback only resets the flag. -/
def extractCharactersTerminal : JobOutcome → TerminalRun
  | .succeeded _ _ => ⟨.sliceLoad, true⟩
  | .failed _ => ⟨.noRefresh, true⟩

/-- What the caller observes from the terminal callbacks of a batch
generation: a success message carrying both aggregate counts, a success
message carrying only the success count, or a failure message carrying the
error. -/
inductive CallbackSeen where
  | successWith (successCount failedCount : Nat)
  | successOnly (successCount : Nat)
  | failureWith (e : Err)
  deriving Repr, DecidableEq

/-- Modelled from the spec: useTaskPoller.js is absent from the repository
snapshot (only its callers are present).  Per the specification, a job
that reaches the succeeded terminal state — including a batch result whose
failed count is positive, which is still a success terminal state for
polling purposes — is delivered to the onSuccess callback with the result
payload, and a failed terminal state is delivered to the onFailure
callback; exactly one of the two fires. -/
def deliverTerminal (outcome : JobOutcome)
    (onS : Nat → Nat → CallbackSeen) (onF : Err → CallbackSeen) : CallbackSeen :=
  match outcome with
  | .succeeded s f => onS s f
  | .failed e => onF e

/-- useCharacterWorkflow.batchGenerateAvatars, terminal observation: the
success callback surfaces a message carrying result.success and
result.failed, the failure callback surfaces the error message. -/
def batchAvatarsObserve (outcome : JobOutcome) : CallbackSeen :=
  deliverTerminal outcome (fun s f => .successWith s f) (fun e => .failureWith e)

/-- useShotWorkflow.generateKeyframes, terminal observation: when
result.failed is positive the success callback surfaces a warning carrying
both counts, otherwise a success message carrying only the success count;
the failure callback surfaces the error message. -/
def generateKeyframesObserve (outcome : JobOutcome) : CallbackSeen :=
  deliverTerminal outcome
    (fun s f => if 0 < f then .successWith s f else .successOnly s)
    (fun e => .failureWith e)

/-- One status response observed by a poll cycle: the job is still pending,
reached a terminal state, or the status query itself failed at the
transport level. -/
inductive PollResp where
  | pending
  | succeeded (r : Nat)
  | failed (e : Err)
  | transport (e : Err)
  deriving Repr, DecidableEq

/-- A callback event fired by the poller towards its caller. -/
inductive CbEvent where
  | onSuccess (r : Nat)
  | onFailure (e : Err)
  deriving Repr, DecidableEq

/-- Whether a status response is a terminal job state. -/
def isTerminal : PollResp → Bool
  | .pending => false
  | .succeeded _ => true
  | .failed _ => true
  | .transport _ => false

/-- Whether the loop, about to process cycle i, has been cancelled:
cancelAt = some c means cancellation was requested before cycle c was
processed (c = 0: before any cycle, possibly while the first cycle was
already in flight). -/
def cancelledAt : Option Nat → Nat → Bool
  | none, _ => false
  | some c, i => c ≤ i

/-- Modelled from the spec: the Job Poller contract of useTaskPoller.js,
which is absent from the repository snapshot.  submit starts a loop that
processes one status response per cycle: cancellation is checked before
firing any callback and a cancelled loop discards everything, even an
already resolved cycle; a pending status reschedules the loop (and resets
the consecutive transport retry count); a succeeded status fires onSuccess
once with the payload and stops; a failed status fires onFailure once and
stops; a transport error is retried while fewer than maxRetries
consecutive transport errors have occurred and is then escalated to a
single onFailure.  The list argument is the finite observed prefix of the
status stream; a job still pending when it ends has fired no callback
yet.  The result is the list of callback events the loop fires, in
order. -/
def pollerRun (maxRetries : Nat) (cancelAt : Option Nat) :
    Nat → Nat → List PollResp → List CbEvent
  | _, _, [] => []
  | i, used, resp :: rest =>
    if cancelledAt cancelAt i then []
    else
      match resp with
      | .pending => pollerRun maxRetries cancelAt (i + 1) 0 rest
      | .succeeded r => [.onSuccess r]
      | .failed e => [.onFailure e]
      | .transport e =>
        if used + 1 < maxRetries then pollerRun maxRetries cancelAt (i + 1) (used + 1) rest
        else [.onFailure e]

theorem allShots_perm (i : Nat) (scs : List Scene) :
    List.Perm (allShots (some ⟨i, some scs⟩)) (flattenShots scs) :=
  List.mergeSort_perm (flattenShots scs) shotLE

theorem mergeSort_all_eq (l : List TaggedShot) (p : TaggedShot → Bool) :
    (l.mergeSort shotLE).all p = l.all p := by
  rw [Bool.eq_iff_iff]
  simp only [List.all_eq_true]
  constructor
  · exact fun h x hx => h x ((List.mergeSort_perm l shotLE).mem_iff.mpr hx)
  · exact fun h x hx => h x ((List.mergeSort_perm l shotLE).mem_iff.mp hx)

theorem jsTruthy_eq_not_beq_none (o : Option String) (h : o ≠ some "") :
    jsTruthy o = !(o == none) := by
  cases o with
  | none => rfl
  | some s =>
    have hs : s ≠ "" := fun h2 => h (by rw [h2])
    simp [jsTruthy, hs]

theorem all_truthy_eq_not_any_none (l : List TaggedShot)
    (hwf : ∀ t ∈ l, t.keyframe_url ≠ some "") :
    (l.all fun t => jsTruthy t.keyframe_url)
      = !(l.any fun t => t.keyframe_url == none) := by
  induction l with
  | nil => rfl
  | cons a l ih =>
    have ha := jsTruthy_eq_not_beq_none a.keyframe_url (hwf a (List.mem_cons_self a l))
    have ihl := ih fun t ht => hwf t (List.mem_cons_of_mem a ht)
    simp only [List.all_cons, List.any_cons, ha, ihl, Bool.not_or]

theorem shotLE_trans (a b c : TaggedShot)
    (hab : shotLE a b = true) (hbc : shotLE b c = true) : shotLE a c = true := by
  simp [shotLE] at *
  omega

theorem shotLE_total (a b : TaggedShot) : (shotLE a b || shotLE b a) = true := by
  simp [shotLE, Bool.or_eq_true]
  omega

theorem allShots_pairwise (script : Option Script) :
    (allShots script).Pairwise fun a b => a.order_index ≤ b.order_index := by
  have key : ∀ l : List TaggedShot,
      (l.mergeSort shotLE).Pairwise fun a b => a.order_index ≤ b.order_index := by
    intro l
    have h := @List.sorted_mergeSort TaggedShot shotLE
      (fun a b c hab hbc => shotLE_trans a b c hab hbc)
      (fun a b => shotLE_total a b) l
    exact h.imp fun hab => by simpa [shotLE] using hab
  match script with
  | none => exact List.Pairwise.nil
  | some ⟨i, none⟩ => exact List.Pairwise.nil
  | some ⟨i, some scs⟩ => exact key (flattenShots scs)

/-- C1: on every keyframe well formed snapshot (no shot carries the empty
string as its keyframe reference, which never occurs since the field is
null until the keyframe job stores a URL), the stage derived by
determineCurrentStep equals the stage described by the claim and computed
by claimStage: 0 when no script exists, 1 when the script has zero scenes,
2 when the union of all shots across all scenes is empty, 3 when at least
one shot has a null keyframe reference, 4 when all shots have keyframes
but zero transitions exist, and 5 otherwise. -/
theorem determineCurrentStep_eq_claimStage :
    ∀ (script : Option Script) (ts : List Transition),
      KeyframeWF script →
      determineCurrentStep script ts = claimStage script ts := by
  intro script ts hwf
  match script with
  | none => rfl
  | some ⟨i, none⟩ => rfl
  | some ⟨i, some scs⟩ =>
    have hwf2 : ∀ t ∈ flattenShots scs, t.keyframe_url ≠ some "" := by
      intro t ht
      exact hwf t ((allShots_perm i scs).mem_iff.mpr ht)
    have hlen : (allShots (some ⟨i, some scs⟩)).length = (flattenShots scs).length :=
      (allShots_perm i scs).length_eq
    have hall : ((allShots (some ⟨i, some scs⟩)).all fun t => jsTruthy t.keyframe_url)
        = !((flattenShots scs).any fun t => t.keyframe_url == none) := by
      have h2 : allShots (some ⟨i, some scs⟩) = (flattenShots scs).mergeSort shotLE := rfl
      rw [h2, mergeSort_all_eq, all_truthy_eq_not_any_none _ hwf2]
    by_cases h1 : scs.length = 0
    · simp [determineCurrentStep, claimStage, h1]
    · by_cases h2 : (flattenShots scs).length = 0
      · simp [determineCurrentStep, claimStage, h1, h2, hlen]
      · by_cases h3 : ((flattenShots scs).any fun t => t.keyframe_url == none) = true
        · simp [determineCurrentStep, claimStage, h1, h2, h3, hlen, hall]
        · have h3f : ((flattenShots scs).any fun t => t.keyframe_url == none) = false :=
            Bool.eq_false_iff.mpr h3
          simp [determineCurrentStep, claimStage, h1, h2, h3f, hlen, hall]

/-- Witness for C1 at a concrete snapshot: one scene with one shot whose
keyframe is null and no transitions; both stage functions return 3. -/
theorem determineCurrentStep_eq_claimStage_witness :
    KeyframeWF (some ⟨1, some [⟨1, [⟨1, 0, none⟩]⟩]⟩)
    ∧ determineCurrentStep (some ⟨1, some [⟨1, [⟨1, 0, none⟩]⟩]⟩) []
        = claimStage (some ⟨1, some [⟨1, [⟨1, 0, none⟩]⟩]⟩) [] := by
  have hsingle : allShots (some ⟨1, some [⟨1, [⟨1, 0, none⟩]⟩]⟩) = [⟨1, 1, 0, none⟩] := by
    simp [allShots, flattenShots, tagShot]
  have hwf : KeyframeWF (some ⟨1, some [⟨1, [⟨1, 0, none⟩]⟩]⟩) := by
    unfold KeyframeWF
    rw [hsingle]
    decide
  exact ⟨hwf, determineCurrentStep_eq_claimStage _ [] hwf⟩

/-- C2 counterexample: a first generateAvatar call for character 7 from the
idle state leaves 7 busy with a poll running for job 1; a second call for
the same id issued while that job is in flight is not a no-op — the
backend submit is performed again and a second poll loop starts for job 2,
so two in-flight jobs exist for the same (stage, entity-id) pair. -/
theorem generateAvatar_second_call_not_noop :
    (generateAvatar [] 7 (.payload (some 1))).generatingIds = [7]
    ∧ (generateAvatar [] 7 (.payload (some 1))).pollStarted = some 1
    ∧ (generateAvatar [7] 7 (.payload (some 2))).jobSubmitted = true
    ∧ (generateAvatar [7] 7 (.payload (some 2))).pollStarted = some 2 := by
  exact ⟨rfl, rfl, rfl, rfl⟩

/-- C2 amended: while a generateOne-style call for an id is in flight, a
second call for the same id is not prevented: the busy set is unchanged
(Set.add of a member is a no-op on the set, which never holds duplicate
entries) but the backend submit is performed again and a second poll loop
is started, so more than one in-flight job per (stage, entity-id) pair is
possible; the same holds for generateSingleVideo, and calls for different
ids in the same stage likewise proceed. -/
theorem generateOne_busy_id_still_submits :
    ∀ (busy : List Nat) (cid t : Nat),
      busy.contains cid = true →
      generateAvatar busy cid (.payload (some t)) = ⟨busy, true, some t⟩
      ∧ generateSingleVideo busy cid (.payload (some t)) = ⟨busy, true, some t⟩ := by
  intro busy cid t h
  have hm : cid ∈ busy := by simpa using h
  constructor
  · simp [generateAvatar, jsSetAdd, hm]
  · simp [generateSingleVideo, jsSetAdd, hm]

/-- Witness for the amended C2 at a concrete input: id 7 is busy and a
second call still submits and polls job 2. -/
theorem generateOne_busy_id_still_submits_witness :
    ([7] : List Nat).contains 7 = true
    ∧ generateAvatar [7] 7 (.payload (some 2)) = ⟨[7], true, some 2⟩ := by
  exact ⟨by decide, (generateOne_busy_id_still_submits [7] 7 2 (by decide)).1⟩

/-- C3, the code evaluated at the failing input: when the submit call of
extractCharacters resolves with a payload that carries no task id, the
extracting flag is left true with no poll loop started, so nothing will
ever release it; the sibling batchGenerateAvatars releases the flag on the
same path through its explicit else branch, and the other exit paths of
extractCharacters (submission rejection, either terminal callback) do
release the flag. -/
theorem extractCharacters_no_task_id_keeps_flag :
    (extractCharacters (.payload none)).busyFlag = true
    ∧ (extractCharacters (.payload none)).pollStarted = false
    ∧ (batchGenerateAvatars (.payload none)).busyFlag = false
    ∧ (∀ e : Err, extractCharacters (.failure e) = ⟨false, false⟩)
    ∧ extractCharactersFlagAfterTerminal = false := by
  exact ⟨rfl, rfl, rfl, fun e => rfl, rfl⟩

/-- C4, the code evaluated at the failing input: on terminal success the
shot workflow performs a global whole-page refresh (window.location.reload,
annotated Temporary solution) in both extractShots and generateKeyframes,
which is not the slice reload the claim requires; the character workflow
reloads only its own slice on the same kind of outcome. -/
theorem shotWorkflow_reloads_whole_page :
    ∀ s f : Nat,
      (extractShotsTerminal (.succeeded s f)).refresh = Refresh.pageReload
      ∧ (generateKeyframesTerminal (.succeeded s f)).refresh = Refresh.pageReload
      ∧ Refresh.pageReload ≠ Refresh.sliceLoad
      ∧ (extractCharactersTerminal (.succeeded s f)).refresh = Refresh.sliceLoad := by
  intro s f
  exact ⟨rfl, rfl, by decide, rfl⟩

/-- C5: a batch terminal result whose failed count is positive is observed
by the caller through the success callback carrying both counts — for
batchGenerateAvatars the success message carries result.success and
result.failed, for generateKeyframes the warning branch carries both
counts — and never through the failure callback, which fires only for a
failed terminal state. -/
theorem partial_batch_failure_observed_as_success :
    ∀ s f : Nat, 0 < f →
      batchAvatarsObserve (.succeeded s f) = CallbackSeen.successWith s f
      ∧ generateKeyframesObserve (.succeeded s f) = CallbackSeen.successWith s f
      ∧ ∀ e : Err, batchAvatarsObserve (.failed e) = CallbackSeen.failureWith e := by
  intro s f hf
  refine ⟨rfl, ?_, fun e => rfl⟩
  simp [generateKeyframesObserve, deliverTerminal, hf]

/-- Witness for C5 at the terminal result of scenario C: eight successes
and two failures are observed as a success callback carrying 8 and 2. -/
theorem partial_batch_failure_observed_as_success_witness :
    0 < 2
    ∧ batchAvatarsObserve (.succeeded 8 2) = CallbackSeen.successWith 8 2 := by
  exact ⟨by decide, (partial_batch_failure_observed_as_success 8 2 (by decide)).1⟩

/-- C7: deleteCharacter and deleteTransition invoke the external delete
collaborator and, when it succeeds, reload their slice through their load
operation; when the deletion fails — including deleting an already deleted
id, which the backend reports as an error — the slice is left exactly as
it was, no reload happens, and the error is surfaced. -/
theorem delete_failure_leaves_slice_unchanged :
    ∀ (e : Err) (pp sp : Bool) (fc : Except Err (Option (List Character)))
      (ft : Except Err (Option (List Transition)))
      (prC : List Character) (prT : List Transition),
      deleteCharacter (.error e) pp fc prC = ⟨prC, false, true⟩
      ∧ (deleteCharacter (.ok ()) pp fc prC).reloaded = true
      ∧ (deleteCharacter (.ok ()) pp fc prC).slice = loadCharacters pp fc prC
      ∧ deleteTransition (.error e) sp ft prT = ⟨prT, false, true⟩
      ∧ (deleteTransition (.ok ()) sp ft prT).reloaded = true
      ∧ (deleteTransition (.ok ()) sp ft prT).slice = loadTransitions sp ft prT := by
  intro e pp sp fc ft prC prT
  exact ⟨rfl, rfl, rfl, rfl, rfl, rfl⟩

/-- C8: every list returned by allShots is sorted by order_index ascending;
order indices are never reassigned by this computation: the sorted list is
a permutation of the tagged flatten of the scenes, and tagging copies the
order index of the source shot unchanged. -/
theorem allShots_sorted_never_reassigns_order_index :
    (∀ script : Option Script,
      (allShots script).Pairwise fun a b => a.order_index ≤ b.order_index)
    ∧ (∀ (i : Nat) (scs : List Scene),
        List.Perm (allShots (some ⟨i, some scs⟩)) (flattenShots scs))
    ∧ (∀ (sid : Nat) (sh : Shot), (tagShot sid sh).order_index = sh.order_index) := by
  exact ⟨allShots_pairwise, fun i scs => allShots_perm i scs, fun sid sh => rfl⟩

/-- C9: allShots is total at its interface — it is a function defined on
every script value; a missing script, a script without a scenes array, or
one with an empty scenes array all yield the empty list, and otherwise the
result consists exactly of the scenes' shots flattened with each shot
tagged with its parent scene's id (as a permutation, since the code sorts
the flattened list). -/
theorem allShots_total_missing_script_empty :
    allShots none = []
    ∧ (∀ i : Nat, allShots (some ⟨i, none⟩) = [])
    ∧ (∀ i : Nat, allShots (some ⟨i, some []⟩) = [])
    ∧ (∀ (i : Nat) (scs : List Scene),
        List.Perm (allShots (some ⟨i, some scs⟩)) (flattenShots scs)) := by
  refine ⟨rfl, fun i => rfl, fun i => ?_, fun i scs => allShots_perm i scs⟩
  simp [allShots, flattenShots]

/-- C10: when the fetch of the chapter script fails, loadScript returns
normally (the error is caught, not propagated) and the script slice is set
to null, discarding the previous snapshot; the stage derived from the null
script is 0; a later successful reload replaces the slice with the fetched
script. -/
theorem loadScript_failure_falls_back_to_stage_zero :
    ∀ (e : Err) (prior : Option Script) (ts : List Transition) (s : Script),
      loadScript true (.error e) prior = none
      ∧ determineCurrentStep (loadScript true (.error e) prior) ts = 0
      ∧ loadScript true (.ok s) prior = some s := by
  intro e prior ts s
  exact ⟨rfl, rfl, rfl⟩

theorem pollerRun_length_le (m : Nat) :
    ∀ (resps : List PollResp) (i used : Nat),
      (pollerRun m none i used resps).length ≤ 1 := by
  intro resps
  induction resps with
  | nil =>
    intro i used
    simp [pollerRun]
  | cons r rest ih =>
    intro i used
    cases r with
    | pending => simpa [pollerRun, cancelledAt] using ih (i + 1) 0
    | succeeded r0 => simp [pollerRun, cancelledAt]
    | failed e => simp [pollerRun, cancelledAt]
    | transport e =>
      by_cases h : used + 1 < m
      · simpa [pollerRun, cancelledAt, h] using ih (i + 1) (used + 1)
      · simp [pollerRun, cancelledAt, h]

theorem pollerRun_terminal_length (m : Nat) :
    ∀ (resps : List PollResp) (i used : Nat),
      resps.any isTerminal = true →
      (pollerRun m none i used resps).length = 1 := by
  intro resps
  induction resps with
  | nil =>
    intro i used h
    simp at h
  | cons r rest ih =>
    intro i used h
    cases r with
    | pending =>
      have hr : rest.any isTerminal = true := by simpa [isTerminal] using h
      simpa [pollerRun, cancelledAt] using ih (i + 1) 0 hr
    | succeeded r0 => simp [pollerRun, cancelledAt]
    | failed e => simp [pollerRun, cancelledAt]
    | transport e =>
      have hr : rest.any isTerminal = true := by simpa [isTerminal] using h
      by_cases hm : used + 1 < m
      · simpa [pollerRun, cancelledAt, hm] using ih (i + 1) (used + 1) hr
      · simp [pollerRun, cancelledAt, hm]

theorem pollerRun_cancelled (m c i used : Nat) (h : c ≤ i) :
    ∀ resps, pollerRun m (some c) i used resps = [] := by
  intro resps
  cases resps with
  | nil => rfl
  | cons r rest => simp [pollerRun, cancelledAt, h]

/-- C6 (modelled from the spec, since useTaskPoller.js is absent from the
repository snapshot): for every submit call of the job poller, at most one
callback event ever fires; when the observed status stream reaches a
terminal job outcome (a succeeded or failed status, or exhaustion of the
transport retry bound, which itself yields one failure callback) exactly
one of onSuccess and onFailure fires, exactly once; and once cancellation
has been requested no callback fires at all, even for a cycle that was
already in flight. -/
theorem poller_fires_exactly_one_callback :
    ∀ (maxRetries : Nat) (resps : List PollResp),
      (pollerRun maxRetries none 0 0 resps).length ≤ 1
      ∧ (resps.any isTerminal = true →
          (pollerRun maxRetries none 0 0 resps).length = 1)
      ∧ (∀ c i used, c ≤ i → pollerRun maxRetries (some c) i used resps = []) := by
  intro m resps
  exact ⟨pollerRun_length_le m resps 0 0,
    fun h => pollerRun_terminal_length m resps 0 0 h,
    fun c i used h => pollerRun_cancelled m c i used h resps⟩

/-- Witness for C6 at concrete inputs: with the default retry bound, a
stream with two transport errors followed by a succeeded status fires
exactly one callback (scenario D), and a loop cancelled before its first
cycle resolves fires none even though the cycle resolves as succeeded
(scenario E). -/
theorem poller_fires_exactly_one_callback_witness :
    ([PollResp.transport ⟨"x"⟩, PollResp.transport ⟨"x"⟩,
        PollResp.succeeded 5].any isTerminal = true)
    ∧ (pollerRun 3 none 0 0 [PollResp.transport ⟨"x"⟩, PollResp.transport ⟨"x"⟩,
        PollResp.succeeded 5]).length = 1
    ∧ pollerRun 3 (some 0) 0 0 [PollResp.succeeded 5] = [] := by
  refine ⟨by decide, (poller_fires_exactly_one_callback 3 _).2.1 (by decide),
    (poller_fires_exactly_one_callback 3 _).2.2 0 0 0 (by decide)⟩
